import Mathlib

/-!
Shallow embedding of the Fluxer-Rust gateway client (`src/client/mod.rs`),
covering the session read loop of `Client::run_session`, the reconnect
policy of `Client::start`, the heartbeat monitor task spawned on op 10,
the voice-state aggregation arms of `dispatch_event`, and the
`Context::join_voice` / `Context::leave_voice` operations.

Machine integers (`u64`, `u16` close codes) are modelled as `Nat`: the
code only stores and compares them, so overflow never matters.  JSON
field accesses such as `payload["s"].as_u64()` are modelled as `Option`
fields of a record holding exactly the accessors the code uses.
-/

namespace Fluxer

/-- Voice connection state (`src/model/voice.rs`): populated incrementally
from `VOICE_STATE_UPDATE` / `VOICE_SERVER_UPDATE` gateway events. -/
structure VoiceState where
  token : String
  endpoint : String
  session_id : Option String
deriving Repr, DecidableEq

/-- The fresh entry inserted by `or_insert_with` in `dispatch_event`. -/
def emptyVoiceState : VoiceState :=
  { token := "", endpoint := "", session_id := none }

/-- The per-guild voice-state map (`Context.voice_states`), modelled as an
association list keyed by guild id. -/
abbrev VSMap : Type := List (String × VoiceState)

/-- Lookup in the voice-state map (`HashMap::get`). -/
def lookupVS : VSMap → String → Option VoiceState
  | [], _ => none
  | (k, v) :: rest, g => if k = g then some v else lookupVS rest g

/-- Removal from the voice-state map (`HashMap::remove`). -/
def removeVS : VSMap → String → VSMap
  | [], _ => []
  | (k, v) :: rest, g =>
    if k = g then removeVS rest g else (k, v) :: removeVS rest g

/-- The `entry(g).or_insert_with(empty)` + in-place mutation pattern of
`dispatch_event`: update the entry for `g` with `f`, inserting
`f emptyVoiceState` when no entry exists. -/
def upsertVS : VSMap → String → (VoiceState → VoiceState) → VSMap
  | [], g, f => [(g, f emptyVoiceState)]
  | (k, v) :: rest, g, f =>
    if k = g then (k, f v) :: rest else (k, v) :: upsertVS rest g f

/-- Character-list prefix test, modelling `str::starts_with`. -/
def charsPrefix : List Char → List Char → Bool
  | [], _ => true
  | _ :: _, [] => false
  | p :: ps, c :: cs => if p = c then charsPrefix ps cs else false

/-- Does `s` start with `p` (`s.starts_with(p)` in the source)? -/
def strStartsWith (s p : String) : Bool :=
  charsPrefix p.toList s.toList

/-- Endpoint normalization in the `VOICE_SERVER_UPDATE` arm of
`dispatch_event`: prepend the secure-websocket scheme unless the endpoint
already carries a secure scheme. -/
def normalizeEndpoint (e : String) : String :=
  if strStartsWith e "wss://" || strStartsWith e "https://" then e
  else "wss://" ++ e

/-- The `VOICE_STATE_UPDATE` arm of `dispatch_event`: the raw values of
`data["guild_id"].as_str()` and `data["session_id"].as_str()` arrive as
`Option String` (missing or non-string keys give `none`), defaulted to
the empty string by `unwrap_or("")`.  The map is touched only when both
are non-empty. -/
def voiceStateUpdate (m : VSMap) (guild_id session_id : Option String) : VSMap :=
  let g := guild_id.getD ""
  let s := session_id.getD ""
  if g ≠ "" ∧ s ≠ "" then
    upsertVS m g (fun v => { v with session_id := some s })
  else m

/-- The `VOICE_SERVER_UPDATE` arm of `dispatch_event`: records token and
normalized endpoint only when guild id, token and endpoint are all
non-empty. -/
def voiceServerUpdate (m : VSMap) (guild_id token endpoint : Option String) : VSMap :=
  let g := guild_id.getD ""
  let t := token.getD ""
  let e := endpoint.getD ""
  if g ≠ "" ∧ t ≠ "" ∧ e ≠ "" then
    upsertVS m g (fun v => { v with token := t, endpoint := normalizeEndpoint e })
  else m

/-- Readiness test of the `join_voice` wait loop: an entry exists and both
`token` and `endpoint` are non-empty.  Returns the state that the loop
would hand out, `none` when the loop would keep waiting (and eventually
time out). -/
def awaitReady (m : VSMap) (g : String) : Option VoiceState :=
  match lookupVS m g with
  | some vs => if vs.token ≠ "" ∧ vs.endpoint ≠ "" then some vs else none
  | none => none

/-! ### The session read loop (`Client::run_session`) -/

/-- Mutable connection-scoped state of `run_session`: the sequence cursor
(`last_seq`, mirrored into `seq_shared`), the session identity captured
from `READY` (`session_id`, `resume_url`), and the heartbeat
acknowledgement flag (`ack_shared`, initialised to `true`). -/
structure SessState where
  last_seq : Option Nat
  session_id : Option String
  resume_url : Option String
  ack : Bool
deriving Repr, DecidableEq

/-- The accessors `run_session` applies to a frame's `d` payload: each is
`none` when the key is missing or of the wrong JSON type. -/
structure DPayload where
  session_id : Option String := none
  resume_gateway_url : Option String := none
  asBool : Option Bool := none
  heartbeat_interval : Option Nat := none
deriving Repr, DecidableEq

/-- A parsed inbound gateway frame: `payload["op"].as_u64()`,
`payload["s"].as_u64()`, `payload["t"].as_str()` and the `d` payload. -/
structure InFrame where
  op : Option Nat := none
  s : Option Nat := none
  t : Option String := none
  d : DPayload := {}
deriving Repr, DecidableEq

/-- One message delivered to the read loop of `run_session`.  A text
message carries `some frame` when `serde_json::from_str` succeeds and
`none` when the body is malformed JSON; a close message carries the peer
close code when a close frame is present. -/
inductive SessionEvent where
  | text (frame : Option InFrame)
  | close (code : Option Nat)
  | ping
  | otherMsg
deriving Repr, DecidableEq

/-- Side effects the read loop performs while continuing. -/
inductive Action where
  | sendPong
  | startMonitor (intervalMs : Nat)
  | sendHeartbeat (seq : Option Nat)
  | dispatchEvent (t : String)
deriving Repr, DecidableEq

/-- Errors `run_session` can return: a JSON parse error propagated by `?`
from `serde_json::from_str`, or `ClientError::ConnectionClosed`. -/
inductive SessErr where
  | jsonError
  | connectionClosed
deriving Repr, DecidableEq

/-- The `LoopControl` values `run_session` returns on success. -/
inductive LoopControl where
  | done
  | reconnect (resume : Bool)
deriving Repr, DecidableEq

/-- The outcome of feeding one message to the read loop: keep looping with
updated state and emitted actions, return a `LoopControl`, or return an
error. -/
inductive StepResult where
  | cont (st : SessState) (acts : List Action)
  | finish (c : LoopControl)
  | fail (e : SessErr)
deriving Repr, DecidableEq

/-- The sequence-cursor update at the top of the frame handler
(`if let Some(s) = payload["s"].as_u64() { *last_seq = Some(s); ... }`):
an unconditional overwrite whenever the frame carries `s`. -/
def updSeqState (st : SessState) (s : Option Nat) : SessState :=
  match s with
  | some v => { st with last_seq := some v }
  | none => st

/-- Drop trailing `'/'` characters, as `trim_end_matches('/')` does. -/
def trimEndSlashes (r : String) : String :=
  String.mk ((r.toList.reverse.dropWhile (fun c => c = '/')).reverse)

/-- Resume-URL formatting applied when `READY` carries
`resume_gateway_url`. -/
def normalizeResumeUrl (r : String) : String :=
  trimEndSlashes r ++ "/?v=1&encoding=json"

/-- The `READY` capture in the op-0 arm: record `session_id` and the
formatted `resume_gateway_url` when present. -/
def applyReady (st : SessState) (d : DPayload) : SessState :=
  let stA := match d.session_id with
    | some sid => { st with session_id := some sid }
    | none => st
  match d.resume_gateway_url with
  | some r => { stA with resume_url := some (normalizeResumeUrl r) }
  | none => stA

/-- One iteration of the `run_session` read loop (`while let Some(msg) =
read.next().await` body): classify the message, handle close codes, answer
pings, parse text frames, update the sequence cursor, and route by op
code. -/
def runSessionStep (st : SessState) (ev : SessionEvent) : StepResult :=
  match ev with
  | .close code =>
    let c := code.getD 0
    if c = 4004 || c = 4010 || c = 4011 || c = 4012 then .finish .done
    else .fail .connectionClosed
  | .ping => .cont st [.sendPong]
  | .otherMsg => .cont st []
  | .text none => .fail .jsonError
  | .text (some f) =>
    let opc := f.op.getD 255
    let st1 := updSeqState st f.s
    if opc = 10 then
      .cont st1 [.startMonitor (f.d.heartbeat_interval.getD 41250)]
    else if opc = 11 then
      .cont { st1 with ack := true } []
    else if opc = 0 then
      let t := f.t.getD ""
      let st2 := if t = "READY" then applyReady st1 f.d else st1
      .cont st2 [.dispatchEvent t]
    else if opc = 7 then
      .finish (.reconnect true)
    else if opc = 9 then
      .finish (.reconnect (f.d.asBool.getD false))
    else if opc = 1 then
      .cont st1 [.sendHeartbeat st1.last_seq]
    else
      .cont st1 []

/-- Fold the read loop over a list of messages, keeping the state from
steps that continue (dispatch frames always continue). -/
def processFrames (st : SessState) (fs : List InFrame) : SessState :=
  fs.foldl
    (fun s f =>
      match runSessionStep s (.text (some f)) with
      | .cont s2 _ => s2
      | _ => s)
    st

/-! ### The outer reconnect loop (`Client::start`) -/

/-- Outcome of one `run_session` attempt as seen by `start`. -/
inductive SessionResult where
  | ok (c : LoopControl)
  | err (e : SessErr)
deriving Repr, DecidableEq

/-- What the `start` loop does with a session outcome: return success,
return the error to the caller, or retry (preserving the
session-identity and sequence state when `preserve` is true, clearing it
otherwise). -/
inductive StartAction where
  | returnOk
  | returnErr (e : SessErr)
  | retry (preserve : Bool)
deriving Repr, DecidableEq

/-- The `match result` in `Client::start`: `Done` returns `Ok(())`;
`Reconnect { resume }` retries, clearing identity and cursor only when
`resume` is false; `Err(ConnectionClosed)` retries with state preserved
(resumable); any other error is returned to the caller. -/
def startStep : SessionResult → StartAction
  | .ok .done => .returnOk
  | .ok (.reconnect r) => .retry r
  | .err .connectionClosed => .retry true
  | .err e => .returnErr e

/-- The identify-or-resume send at the top of `run_session` (lines
244-273): resume is sent only when `session_id` and `last_seq` are both
present; otherwise identify (with intents 0) is sent. -/
inductive StartFrame where
  | resume (token sid : String) (seq : Nat)
  | identify (token : String) (intents : Nat)
deriving Repr, DecidableEq

/-- Which initial frame `run_session` writes, as a function of the carried
session identity and sequence cursor. -/
def initialFrame (token : String) (session_id : Option String)
    (last_seq : Option Nat) : StartFrame :=
  match session_id, last_seq with
  | some sid, some seq => .resume token sid seq
  | some _, none => .identify token 0
  | none, _ => .identify token 0

/-- Discriminator: is the initial frame a resume frame (op 6)? -/
def StartFrame.isResume : StartFrame → Bool
  | .resume _ _ _ => true
  | .identify _ _ => false

/-! ### The heartbeat monitor task (spawned on op 10)

The monitor shares `ack_shared` and `seq_shared` with the read loop.  We
model the interleaving of the two tasks as a trace of events: the
monitor's ticker firing, the read loop processing a heartbeat-ack
(op 11, which sets the flag), and the read loop recording a sequence
number. -/

/-- One event relevant to the heartbeat monitor. -/
inductive HBEvent where
  | tick
  | ackRecv
  | seqUpdate (s : Nat)
deriving Repr, DecidableEq

/-- State of the shared heartbeat cells plus the monitor task itself:
`ack` is `ack_shared` (initially `true`), `seq` is `seq_shared`,
`halted` records that the monitor's loop has hit `break` (zombie
detection or write failure), and `sent` lists the payloads of the
heartbeat frames the monitor has emitted, in order. -/
structure HBState where
  ack : Bool
  seq : Option Nat
  halted : Bool
  sent : List (Option Nat)
deriving Repr, DecidableEq

/-- One step of the heartbeat trace.  A tick after `break` does nothing
(the task is gone).  At a live tick, the monitor first checks
`ack_shared`: still false means the previous heartbeat was never acked
within the interval, so it condemns the connection and breaks without
sending; otherwise it clears the flag and emits a heartbeat carrying the
current shared sequence. -/
def hbStep (st : HBState) (e : HBEvent) : HBState :=
  match e with
  | .ackRecv => { st with ack := true }
  | .seqUpdate s => { st with seq := some s }
  | .tick =>
    if st.halted then st
    else if !st.ack then { st with halted := true }
    else { st with ack := false, sent := st.sent ++ [st.seq] }

/-- Fold a trace of heartbeat events. -/
def hbRun (st : HBState) (es : List HBEvent) : HBState :=
  es.foldl hbStep st

/-! ### Voice operations (`Context::join_voice`, `Context::leave_voice`)

`join_voice` awaits the aggregator while `dispatch_event` records
fragments concurrently; we sequentialise one call as: clear the guild's
entry, send the op-4 signaling frame (which may fail), apply the
fragments that arrive before the deadline, test readiness, open the
media session (which may fail), and record the room handle.  The room
map `live_rooms` is modelled by the list of guild ids holding a room
handle. -/

/-- A voice-signaling fragment delivered by `dispatch_event` while
`join_voice` waits. -/
inductive Fragment where
  | stateFrag (guild_id session_id : Option String)
  | serverFrag (guild_id token endpoint : Option String)
deriving Repr, DecidableEq

/-- Apply one fragment to the voice-state map, exactly as the
corresponding `dispatch_event` arm does. -/
def applyFragment (m : VSMap) : Fragment → VSMap
  | .stateFrag g s => voiceStateUpdate m g s
  | .serverFrag g t e => voiceServerUpdate m g t e

/-- The environment a `join_voice` call runs against: whether the
signaling send succeeds, which fragments arrive before the deadline, and
whether `FluxerVoiceConnection::connect` succeeds. -/
structure JoinEnv where
  sendOk : Bool
  arrivals : List Fragment
  connectOk : Bool
deriving Repr, DecidableEq

/-- Result of a `join_voice` call; the three error cases are all
`ClientError::Voice` values. -/
inductive JoinResult where
  | ok
  | errSend
  | errTimeout
  | errConnect
deriving Repr, DecidableEq

/-- Is the result one of the `ClientError::Voice` failures? -/
def JoinResult.isVoiceErr : JoinResult → Bool
  | .ok => false
  | _ => true

/-- The room map `live_rooms`, modelled by the guild ids that hold an
open media-session handle. -/
abbrev RoomMap : Type := List String

/-- Does the room map hold a handle for guild `g`? -/
def hasRoom : RoomMap → String → Bool
  | [], _ => false
  | k :: rest, g => if k = g then true else hasRoom rest g

/-- Removal from the room map (`HashMap::remove`, dropping the handle). -/
def removeRoom : RoomMap → String → RoomMap
  | [], _ => []
  | k :: rest, g => if k = g then removeRoom rest g else k :: removeRoom rest g

/-- Sequentialised `Context::join_voice`: remove the guild's stale entry,
send the join frame, wait for readiness while fragments arrive, connect
the media session, record the room.  Returns the result together with
the final voice-state and room maps. -/
def join_voice (env : JoinEnv) (g : String) (vs : VSMap) (rooms : RoomMap) :
    JoinResult × VSMap × RoomMap :=
  let vs1 := removeVS vs g
  if !env.sendOk then (.errSend, vs1, rooms)
  else
    let vs2 := env.arrivals.foldl applyFragment vs1
    match awaitReady vs2 g with
    | none => (.errTimeout, vs2, rooms)
    | some _ =>
      if !env.connectOk then (.errConnect, vs2, rooms)
      else (.ok, vs2, g :: removeRoom rooms g)

/-- Result of a `leave_voice` call. -/
inductive LeaveResult where
  | ok
  | errSend
deriving Repr, DecidableEq

/-- Sequentialised `Context::leave_voice`: close and remove the guild's
room handle if present, send the op-4 leave frame (failure aborts with a
Voice error), then remove the guild's voice-state entry. -/
def leave_voice (sendOk : Bool) (g : String) (vs : VSMap) (rooms : RoomMap) :
    LeaveResult × VSMap × RoomMap :=
  let rooms1 := removeRoom rooms g
  if !sendOk then (.errSend, vs, rooms1)
  else (.ok, removeVS vs g, rooms1)

/-- The per-connection state `run_session` starts from on a fresh
`start()`: no cursor, no session identity, `ack_shared` = `true`. -/
def initSess : SessState :=
  { last_seq := none, session_id := none, resume_url := none, ack := true }

/-- A plain dispatch frame (op 0, non-`READY` tag) carrying sequence
number `n`. -/
def mkDispatch (n : Nat) : InFrame :=
  { op := some 0, s := some n, t := some "GUILD_CREATE", d := {} }

end Fluxer

/-! ## Helper lemmas -/

namespace Fluxer

theorem hbRun_cons (st : HBState) (e : HBEvent) (es : List HBEvent) :
    hbRun st (e :: es) = hbRun (hbStep st e) es := rfl

theorem hbStep_frozen (st : HBState) (e : HBEvent) (h : st.halted = true) :
    (hbStep st e).halted = true ∧ (hbStep st e).sent = st.sent := by
  cases e <;> simp [hbStep, h]

theorem hbRun_frozen (es : List HBEvent) (st : HBState) (h : st.halted = true) :
    (hbRun st es).halted = true ∧ (hbRun st es).sent = st.sent := by
  induction es generalizing st with
  | nil => exact ⟨h, rfl⟩
  | cons e es ih =>
    rw [hbRun_cons]
    obtain ⟨h1, h2⟩ := hbStep_frozen st e h
    obtain ⟨h3, h4⟩ := ih (hbStep st e) h1
    exact ⟨h3, h4.trans h2⟩

theorem hbRun_noAck (es : List HBEvent) (st : HBState) (hh : st.halted = false)
    (ha : st.ack = false) (hno : ∀ e ∈ es, e ≠ HBEvent.ackRecv)
    (ht : HBEvent.tick ∈ es) :
    (hbRun st es).halted = true ∧ (hbRun st es).sent = st.sent := by
  induction es generalizing st with
  | nil => cases ht
  | cons e es ih =>
    rw [hbRun_cons]
    cases e with
    | ackRecv => exact absurd rfl (hno _ (List.mem_cons_self _ _))
    | tick =>
      have hstep : hbStep st .tick = { st with halted := true } := by
        simp [hbStep, hh, ha]
      rw [hstep]
      exact hbRun_frozen es _ rfl
    | seqUpdate s =>
      have hstep : hbStep st (.seqUpdate s) = { st with seq := some s } := rfl
      rw [hstep]
      have ht2 : HBEvent.tick ∈ es := by
        rcases List.mem_cons.mp ht with h | h
        · cases h
        · exact h
      exact ih _ hh ha (fun e he => hno e (List.mem_cons_of_mem _ he)) ht2

theorem lookupVS_removeVS_self (m : VSMap) (g : String) :
    lookupVS (removeVS m g) g = none := by
  induction m with
  | nil => rfl
  | cons a rest ih =>
    obtain ⟨k, v⟩ := a
    by_cases h : k = g
    · simpa [removeVS, h] using ih
    · simp [removeVS, h, lookupVS, ih]

theorem removeVS_absent (m : VSMap) (g : String) (h : lookupVS m g = none) :
    removeVS m g = m := by
  induction m with
  | nil => rfl
  | cons a rest ih =>
    obtain ⟨k, v⟩ := a
    by_cases hk : k = g
    · simp [lookupVS, hk] at h
    · simp [lookupVS, hk] at h
      simp [removeVS, hk, ih h]

theorem hasRoom_removeRoom_self (r : RoomMap) (g : String) :
    hasRoom (removeRoom r g) g = false := by
  induction r with
  | nil => rfl
  | cons k rest ih =>
    by_cases h : k = g
    · simpa [removeRoom, h] using ih
    · simp [removeRoom, h, hasRoom, ih]

theorem removeRoom_absent (r : RoomMap) (g : String) (h : hasRoom r g = false) :
    removeRoom r g = r := by
  induction r with
  | nil => rfl
  | cons k rest ih =>
    by_cases hk : k = g
    · simp [hasRoom, hk] at h
    · simp [hasRoom, hk] at h
      simp [removeRoom, hk, ih h]

theorem processFrames_dispatch_cons (st : SessState) (n : Nat) (fs : List InFrame) :
    processFrames st (mkDispatch n :: fs) =
      processFrames { st with last_seq := some n } fs := by
  simp [processFrames, runSessionStep, mkDispatch, updSeqState]

theorem cursor_getLast (ss : List Nat) (st : SessState) (h : ss ≠ []) :
    (processFrames st (ss.map mkDispatch)).last_seq = some (ss.getLast h) := by
  induction ss generalizing st with
  | nil => exact absurd rfl h
  | cons a ss ih =>
    cases ss with
    | nil =>
      rw [List.map_cons, List.map_nil, processFrames_dispatch_cons]
      rfl
    | cons b ss2 =>
      rw [List.map_cons, processFrames_dispatch_cons,
        List.getLast_cons (List.cons_ne_nil b ss2)]
      exact ih _ (List.cons_ne_nil b ss2)

theorem chain_le_getLast (l : List Nat) (a : Nat)
    (h : List.Chain (fun x y => x < y) a l) :
    ∀ x ∈ a :: l, x ≤ (a :: l).getLast (List.cons_ne_nil a l) := by
  induction l generalizing a with
  | nil =>
    intro x hx
    simp at hx
    simp [hx, List.getLast]
  | cons b l2 ih =>
    rw [List.chain_cons] at h
    intro x hx
    have hb := ih b h.2 b (List.mem_cons_self b l2)
    rw [List.getLast_cons (List.cons_ne_nil b l2)]
    rcases List.mem_cons.mp hx with rfl | hx2
    · exact le_trans (le_of_lt h.1) hb
    · exact ih b h.2 x hx2

end Fluxer

/-! ## Claim theorems -/

namespace Fluxer

/-- Claim C1: a heartbeat frame is never sent while the previous
heartbeat's acknowledgement is still outstanding past one full interval
(at such a tick the monitor condemns the connection and halts without
sending); if no heartbeat-ack is received within one full interval after
a heartbeat is sent, the monitor tears the connection down (halts,
emitting nothing further), and the resulting session failure
(`ConnectionClosed`) makes `start` initiate a state-preserving
reconnect. -/
theorem heartbeat_liveness :
    (∀ st : HBState, st.halted = false → st.ack = false →
       hbStep st .tick = { st with halted := true }) ∧
    (∀ (st : HBState) (es : List HBEvent), st.halted = false → st.ack = true →
       (hbStep st .tick).sent = st.sent ++ [st.seq] ∧
       (hbStep st .tick).ack = false ∧
       ((∀ e ∈ es, e ≠ HBEvent.ackRecv) → HBEvent.tick ∈ es →
          (hbRun (hbStep st .tick) es).halted = true ∧
          (hbRun (hbStep st .tick) es).sent = st.sent ++ [st.seq])) ∧
    startStep (.err .connectionClosed) = .retry true := by
  refine ⟨?_, ?_, rfl⟩
  · intro st hh ha
    simp [hbStep, hh, ha]
  · intro st es hh ha
    have hstep : hbStep st .tick
        = { st with ack := false, sent := st.sent ++ [st.seq] } := by
      simp [hbStep, hh, ha]
    rw [hstep]
    exact ⟨rfl, rfl, fun hno ht => hbRun_noAck es _ hh rfl hno ht⟩

/-- Witness for C1: a concrete unacked tick halts without sending, and a
concrete trace with a sent heartbeat and no ack halts at the next tick. -/
theorem heartbeat_liveness_witness :
    hbStep { ack := false, seq := some 2, halted := false, sent := [some 2] } .tick
      = { ack := false, seq := some 2, halted := true, sent := [some 2] } ∧
    (hbRun (hbStep { ack := true, seq := some 3, halted := false, sent := [] } .tick)
        [HBEvent.seqUpdate 4, HBEvent.tick]).halted = true ∧
    startStep (.err .connectionClosed) = .retry true := by
  refine ⟨heartbeat_liveness.1 _ rfl rfl, ?_, heartbeat_liveness.2.2⟩
  exact ((heartbeat_liveness.2.1 _ [HBEvent.seqUpdate 4, HBEvent.tick] rfl rfl).2.2
    (by decide) (by decide)).1

/-- Counterexample for C2: with a session identity present but no
sequence cursor, `run_session` sends an identify frame, not a resume
frame, contradicting the claim that a present `SessionIdentity` always
yields a resume frame and never an identify frame. -/
theorem initial_frame_cex :
    initialFrame "tok" (some "abc") none = .identify "tok" 0 ∧
    (initialFrame "tok" (some "abc") none).isResume = false := ⟨rfl, rfl⟩

/-- Claim C2 (amended): a resume frame (op 6) is sent exactly when both
the `SessionIdentity` and the `SequenceCursor` are present; in every
other case an identify frame (op 2) is sent, and never both. -/
theorem initial_frame_policy (token : String) (sid : Option String)
    (seq : Option Nat) :
    (∀ s q, sid = some s → seq = some q →
       initialFrame token sid seq = .resume token s q) ∧
    (sid = none ∨ seq = none → initialFrame token sid seq = .identify token 0) ∧
    (initialFrame token sid seq).isResume = (sid.isSome && seq.isSome) := by
  cases sid <;> cases seq <;> simp [initialFrame, StartFrame.isResume]

/-- Witness for C2 (amended): concrete resume and identify cases. -/
theorem initial_frame_policy_witness :
    initialFrame "tok" (some "sid") (some 5) = .resume "tok" "sid" 5 ∧
    initialFrame "tok" none none = .identify "tok" 0 :=
  ⟨(initial_frame_policy "tok" (some "sid") (some 5)).1 "sid" 5 rfl rfl,
   (initial_frame_policy "tok" none none).2.1 (Or.inl rfl)⟩

/-- Counterexample for C3: the cursor is overwritten, not advanced — a
dispatch frame carrying `s = 3` after one carrying `s = 5` regresses
`last_seq` from `some 5` to `some 3`. -/
theorem seq_cursor_regress_cex :
    (processFrames initSess [mkDispatch 5]).last_seq = some 5 ∧
    (processFrames initSess [mkDispatch 5, mkDispatch 3]).last_seq = some 3 ∧
    (3 : Nat) < 5 := by decide

/-- Claim C3 (amended): the cursor always holds the most recently
received sequence number (so it can regress on non-monotone input); in
particular, for every strictly increasing stream of dispatch frames the
cursor after processing equals the maximum `s` observed. -/
theorem seq_cursor_tracking (st : SessState) (ss : List Nat) (h : ss ≠ []) :
    (processFrames st (ss.map mkDispatch)).last_seq = some (ss.getLast h) ∧
    (List.Chain' (fun x y => x < y) ss → ∀ x ∈ ss, x ≤ ss.getLast h) := by
  refine ⟨cursor_getLast ss st h, ?_⟩
  intro hch x hx
  cases ss with
  | nil => exact absurd rfl h
  | cons a l => exact chain_le_getLast l a hch x hx

/-- Witness for C3 (amended): a concrete strictly increasing stream ends
with the cursor at its maximum. -/
theorem seq_cursor_tracking_witness :
    (processFrames initSess ([1, 2, 5].map mkDispatch)).last_seq = some 5 ∧
    (2 : Nat) ≤ 5 := by
  have h := seq_cursor_tracking initSess [1, 2, 5] (by decide)
  have hch : List.Chain' (fun x y => x < y) [1, 2, 5] := by
    norm_num [List.chain'_cons, List.chain'_singleton]
  exact ⟨h.1, h.2 hch 2 (by decide)⟩

/-- Counterexample for C4: a malformed text frame is not dropped — the
read loop aborts with a JSON error, and `start` returns that error to
the caller instead of continuing or reconnecting. -/
theorem malformed_frame_cex :
    runSessionStep initSess (.text none) = .fail .jsonError ∧
    startStep (.err .jsonError) = .returnErr .jsonError := ⟨rfl, rfl⟩

/-- Claim C4 (amended): for every inbound text frame whose body is
malformed JSON, `run_session` returns a JSON parse error (the `?` on
`serde_json::from_str`), and `start` propagates that error to its
caller; the frame is not dropped and the connection does not continue. -/
theorem malformed_frame_propagates (st : SessState) :
    runSessionStep st (.text none) = .fail .jsonError ∧
    startStep (.err .jsonError) = .returnErr .jsonError := ⟨rfl, rfl⟩

/-- Claim C5: a transport close with code 4004, 4010, 4011 or 4012 makes
the session finish with `Done`, which `start` turns into a successful
return (no further reconnects); any other close code fails the session
with `ConnectionClosed`, which `start` turns into a state-preserving
(resumable) retry. -/
theorem close_code_policy (st : SessState) (code : Nat) :
    ((code = 4004 ∨ code = 4010 ∨ code = 4011 ∨ code = 4012) →
       runSessionStep st (.close (some code)) = .finish .done ∧
       startStep (.ok .done) = .returnOk) ∧
    (code ≠ 4004 → code ≠ 4010 → code ≠ 4011 → code ≠ 4012 →
       runSessionStep st (.close (some code)) = .fail .connectionClosed ∧
       startStep (.err .connectionClosed) = .retry true) := by
  constructor
  · rintro (rfl | rfl | rfl | rfl) <;> exact ⟨rfl, rfl⟩
  · intro h1 h2 h3 h4
    refine ⟨?_, rfl⟩
    simp [runSessionStep, h1, h2, h3, h4]

/-- Witness for C5: code 4004 ends the client successfully, code 1006
triggers a resumable reconnect. -/
theorem close_code_policy_witness :
    (runSessionStep initSess (.close (some 4004)) = .finish .done ∧
       startStep (.ok .done) = .returnOk) ∧
    (runSessionStep initSess (.close (some 1006)) = .fail .connectionClosed ∧
       startStep (.err .connectionClosed) = .retry true) :=
  ⟨(close_code_policy initSess 4004).1 (Or.inl rfl),
   (close_code_policy initSess 1006).2 (by decide) (by decide) (by decide)
     (by decide)⟩

/-- Counterexample for C6: a server fragment alone (no state fragment
ever recorded for the guild) already makes `await_ready` return a state
— one whose `session_id` is still `none` — contradicting the claim that
readiness requires both fragments. -/
theorem voice_ready_cex :
    awaitReady (voiceServerUpdate [] (some "g") (some "t") (some "e")) "g"
      = some { token := "t", endpoint := "wss://e", session_id := none } := by
  decide

/-- Claim C6 (amended): a `VoiceState` is reported ready exactly when its
`token` and `endpoint` are non-empty — i.e. once a valid server fragment
has been recorded; the state fragment is not required, and awaiting
before a server fragment arrives keeps blocking (times out) — a state
fragment alone never readies the entry. -/
theorem voice_ready_server_only :
    (∀ (m : VSMap) (g : String) (vs : VoiceState), awaitReady m g = some vs →
       lookupVS m g = some vs ∧ vs.token ≠ "" ∧ vs.endpoint ≠ "") ∧
    (∀ (gid sess : Option String) (g : String),
       awaitReady (voiceStateUpdate [] gid sess) g = none) := by
  constructor
  · intro m g vs h
    unfold awaitReady at h
    split at h
    · rename_i w hl
      by_cases hcond : w.token ≠ "" ∧ w.endpoint ≠ ""
      · rw [if_pos hcond] at h
        cases h
        exact ⟨hl, hcond.1, hcond.2⟩
      · rw [if_neg hcond] at h
        cases h
    · cases h
  · intro gid sess g
    by_cases hc : gid.getD "" ≠ "" ∧ sess.getD "" ≠ ""
    · by_cases hg : gid.getD "" = g
      · have hgne : g ≠ "" := hg ▸ hc.1
        simp [voiceStateUpdate, hc.1, hc.2, awaitReady, upsertVS, lookupVS,
          emptyVoiceState, hg, hgne]
      · simp [voiceStateUpdate, hc.1, hc.2, awaitReady, upsertVS, lookupVS,
          emptyVoiceState, hg]
    · simp [voiceStateUpdate, hc, awaitReady, lookupVS]

/-- Witness for C6 (amended): the state handed out for a concrete ready
entry has non-empty token and endpoint, and a concrete state fragment
alone leaves `await_ready` blocked. -/
theorem voice_ready_server_only_witness :
    lookupVS (voiceServerUpdate [] (some "g") (some "t") (some "e")) "g"
      = some { token := "t", endpoint := "wss://e", session_id := none } ∧
    awaitReady (voiceStateUpdate [] (some "g") (some "sess")) "g" = none :=
  ⟨(voice_ready_server_only.1
      (voiceServerUpdate [] (some "g") (some "t") (some "e")) "g"
      { token := "t", endpoint := "wss://e", session_id := none }
      (by decide)).1,
   voice_ready_server_only.2 (some "g") (some "sess") "g"⟩

/-- Counterexample for C7: when the media-session open fails, `join_voice`
returns a Voice error but the guild's (ready) voice-state entry recorded
during the wait is retained in the map, contradicting "no partial state
is retained in every failure case". -/
theorem join_voice_partial_state_cex :
    (join_voice { sendOk := true, arrivals := [.serverFrag (some "g") (some "t") (some "e")], connectOk := false } "g" [] []).1 = .errConnect ∧
    lookupVS (join_voice { sendOk := true, arrivals := [.serverFrag (some "g") (some "t") (some "e")], connectOk := false } "g" [] []).2.1 "g"
      = some { token := "t", endpoint := "wss://e", session_id := none } := by
  decide

/-- Claim C7 (amended): `join_voice` fails with a Voice error on
signaling-send failure, aggregator timeout, and media-session-open
failure; on every failure the connection (room) map is left unchanged,
and on send failure the guild's voice-state entry is absent (it is
cleared at call start) — but fragments recorded during the wait remain
in the voice-state map on timeout or media-open failure. -/
theorem join_voice_failure_policy (env : JoinEnv) (g : String) (vs : VSMap)
    (rooms : RoomMap) :
    ((join_voice env g vs rooms).1 ≠ .ok →
       ((join_voice env g vs rooms).1).isVoiceErr = true ∧
       (join_voice env g vs rooms).2.2 = rooms) ∧
    (env.sendOk = false →
       join_voice env g vs rooms = (.errSend, removeVS vs g, rooms) ∧
       lookupVS (removeVS vs g) g = none) := by
  constructor
  · intro hne
    unfold join_voice at hne ⊢
    cases hs : env.sendOk with
    | false => simp [hs, JoinResult.isVoiceErr]
    | true =>
      simp only [hs, Bool.not_true, Bool.false_eq_true, if_false] at hne ⊢
      cases har : awaitReady (env.arrivals.foldl applyFragment (removeVS vs g)) g with
      | none => simp [har, JoinResult.isVoiceErr]
      | some w =>
        simp only [har] at hne ⊢
        cases hc : env.connectOk with
        | false => simp [hc, JoinResult.isVoiceErr]
        | true => simp [hc] at hne
  · intro hs
    simp [join_voice, hs, lookupVS_removeVS_self]

/-- Witness for C7 (amended): a concrete send failure yields a Voice
error with the guild's entry cleared and the room map untouched. -/
theorem join_voice_failure_policy_witness :
    ((join_voice { sendOk := false, arrivals := [], connectOk := true } "g"
        [("g", emptyVoiceState)] []).1).isVoiceErr = true ∧
    join_voice { sendOk := false, arrivals := [], connectOk := true } "g"
        [("g", emptyVoiceState)] []
      = (.errSend, [], []) := by
  have h := join_voice_failure_policy
    { sendOk := false, arrivals := [], connectOk := true } "g"
    [("g", emptyVoiceState)] []
  exact ⟨(h.1 (by decide)).1, (h.2 rfl).1⟩

/-- Claim C8: `leave_voice` is idempotent — leaving a guild with no room
handle and no voice-state entry is a no-op success, and a second
consecutive call succeeds and leaves both maps exactly as the first call
left them. -/
theorem leave_voice_idempotent :
    (∀ (g : String) (vs : VSMap) (rooms : RoomMap),
       lookupVS vs g = none → hasRoom rooms g = false →
       leave_voice true g vs rooms = (.ok, vs, rooms)) ∧
    (∀ (g : String) (vs : VSMap) (rooms : RoomMap),
       leave_voice true g (leave_voice true g vs rooms).2.1
           (leave_voice true g vs rooms).2.2
         = (.ok, (leave_voice true g vs rooms).2.1,
             (leave_voice true g vs rooms).2.2)) := by
  constructor
  · intro g vs rooms h1 h2
    simp [leave_voice, removeVS_absent vs g h1, removeRoom_absent rooms g h2]
  · intro g vs rooms
    simp only [leave_voice, Bool.not_true, Bool.false_eq_true, if_false,
      Prod.mk.injEq]
    exact ⟨trivial,
      removeVS_absent _ _ (lookupVS_removeVS_self vs g),
      removeRoom_absent _ _ (hasRoom_removeRoom_self rooms g)⟩

/-- Witness for C8: leaving with nothing joined is a no-op success; a
concrete second call leaves the maps unchanged. -/
theorem leave_voice_idempotent_witness :
    leave_voice true "g" [] [] = (.ok, [], []) ∧
    leave_voice true "g"
        (leave_voice true "g" [("g", emptyVoiceState)] ["g"]).2.1
        (leave_voice true "g" [("g", emptyVoiceState)] ["g"]).2.2
      = (.ok, (leave_voice true "g" [("g", emptyVoiceState)] ["g"]).2.1,
          (leave_voice true "g" [("g", emptyVoiceState)] ["g"]).2.2) :=
  ⟨leave_voice_idempotent.1 "g" [] [] rfl rfl,
   leave_voice_idempotent.2 "g" [("g", emptyVoiceState)] ["g"]⟩

/-- Claim C9: an inbound frame with op 1 (server-requested heartbeat)
makes the read loop immediately send a heartbeat frame whose payload is
the current sequence cursor (after this frame's own `s` update), or null
when none has been observed. -/
theorem op1_sends_heartbeat (st : SessState) (f : InFrame) (h : f.op = some 1) :
    runSessionStep st (.text (some f)) =
      .cont (updSeqState st f.s)
        [.sendHeartbeat (updSeqState st f.s).last_seq] := by
  simp [runSessionStep, h]

/-- Witness for C9: a concrete op-1 frame carrying `s = 7` is answered
with a heartbeat whose payload is `some 7`. -/
theorem op1_sends_heartbeat_witness :
    runSessionStep initSess (.text (some { op := some 1, s := some 7 })) =
      .cont { initSess with last_seq := some 7 } [.sendHeartbeat (some 7)] :=
  op1_sends_heartbeat initSess { op := some 1, s := some 7 } rfl

/-- Claim C10: a `VOICE_STATE_UPDATE` whose guild id or session id is
missing or empty, and a `VOICE_SERVER_UPDATE` whose guild id, token or
endpoint is missing or empty, leave the per-guild voice-state map
completely unchanged. -/
theorem invalid_fragment_ignored (m : VSMap) (gid sess tok ep : Option String) :
    ((gid.getD "" = "" ∨ sess.getD "" = "") → voiceStateUpdate m gid sess = m) ∧
    ((gid.getD "" = "" ∨ tok.getD "" = "" ∨ ep.getD "" = "") →
       voiceServerUpdate m gid tok ep = m) := by
  constructor
  · rintro (h | h) <;> simp [voiceStateUpdate, h]
  · rintro (h | h | h) <;> simp [voiceServerUpdate, h]

/-- Witness for C10: a concrete state fragment with a missing guild id
and a concrete server fragment with an empty token both leave a
non-empty map untouched. -/
theorem invalid_fragment_ignored_witness :
    voiceStateUpdate [("g", emptyVoiceState)] none (some "sess")
      = [("g", emptyVoiceState)] ∧
    voiceServerUpdate [("g", emptyVoiceState)] (some "g") (some "") (some "e")
      = [("g", emptyVoiceState)] :=
  ⟨(invalid_fragment_ignored [("g", emptyVoiceState)] none (some "sess")
      (some "") (some "e")).1 (Or.inl rfl),
   (invalid_fragment_ignored [("g", emptyVoiceState)] (some "g") (some "sess")
      (some "") (some "e")).2 (Or.inr (Or.inl rfl))⟩

end Fluxer
